import Mathlib

/-!
Shallow embedding of the discount-assignment and commission-query logic of
the dub web application, together with the checkout-session webhook handler.

Sources embedded:
* `src/apps/web/lib/actions/partners/create-discount.ts` (`createDiscountAction`)
* `src/apps/web/app/api/commissions/route.ts` (`GET /api/commissions`)
* `src/unnamed/part_000` (`GET /api/programs/[programId]/discounts/partners`)
* `src/apps/web/app/(ee)/api/stripe/webhook/checkout-session-completed.ts`

The database is modelled as lists of rows; each prisma call becomes an
explicit read or write on that state.  Handlers that can throw return
`Except`; server-action state is threaded explicitly, so that a thrown
error carries the state as it was at the moment of the throw.
-/

namespace Dub

/-- A partner/affiliate program row (`Program`): `defaultDiscountId` is a
nullable reference to a `Discount`. -/
structure Program where
  id : String
  workspaceId : String
  defaultDiscountId : Option String
deriving Repr, DecidableEq

/-- A discount row (`Discount`), as inserted by `createDiscountAction`. -/
structure Discount where
  id : String
  programId : String
  amount : Nat
  dtype : String
  maxDuration : Option Nat
  couponId : Option String
  couponTestId : Option String
deriving Repr, DecidableEq

/-- One partner's membership in one program (`ProgramEnrollment`);
`discountId` is a nullable reference to a `Discount`. -/
structure ProgramEnrollment where
  id : String
  programId : String
  partnerId : String
  discountId : Option String
deriving Repr, DecidableEq

/-- A partner row; the fields selected by the discount-partners route. -/
structure Partner where
  id : String
  name : String
  image : Option String
  email : Option String
deriving Repr, DecidableEq

/-- A customer row (only its identity matters for the `include` expansion). -/
structure Customer where
  id : String
  name : String
deriving Repr, DecidableEq

/-- A commission fact row (`Commission`).  `createdAt` is an epoch
timestamp; `earnings` may be zero or negative (e.g. reversed). -/
structure Commission where
  id : String
  programId : String
  partnerId : Option String
  customerId : Option String
  payoutId : Option String
  status : String
  ctype : String
  earnings : Int
  createdAt : Nat
deriving Repr, DecidableEq

/-- The relational store visible to the embedded handlers. -/
structure Db where
  programs : List Program
  discounts : List Discount
  programEnrollments : List ProgramEnrollment
  partners : List Partner
  customers : List Customer
  commissions : List Commission
  auditLogs : List String
deriving Repr, DecidableEq

/-- The typed failures of `createDiscountAction`, one constructor per
`throw` site in the source. -/
inductive ActionError where
  /-- `getProgramOrThrow` failed: program absent or owned by another
  workspace. -/
  | programNotFound
  /-- "Invalid partner IDs provided." — enrollment count mismatch. -/
  | invalidPartnerIds
  /-- "Partners cannot belong to more than one discount." -/
  | partnerDiscountConflict
  /-- "A program can have only one default discount." -/
  | defaultDiscountConflict
deriving Repr, DecidableEq

/-- `getProgramOrThrow({ workspaceId, programId })`: resolve the program by
id, scoped to the calling workspace; `none` models the thrown NotFound. -/
def getProgramOrThrow (db : Db) (workspaceId programId : String) :
    Option Program :=
  db.programs.find? fun p => p.id == programId && p.workspaceId == workspaceId

/-- The parsed input of `createDiscountSchema`: `partnerIds` is optional,
and — as in the source — a *present but empty* array is distinct from an
absent one. -/
structure CreateDiscountInput where
  programId : String
  partnerIds : Option (List String)
  amount : Nat
  dtype : String
  maxDuration : Option Nat
  couponId : Option String
  couponTestId : Option String
deriving Repr, DecidableEq

/-- The validation phase of `createDiscountAction` for a present
`partnerIds` array: load the enrollments for `(programId, partnerId in
partnerIds)`, throw `invalidPartnerIds` on a count mismatch, then
`partnerDiscountConflict` if any loaded row already has a discount.
Returns the resulting `isDefault` flag (`false`), mirroring the source's
mutation of `isDefault` inside `if (partnerIds) { ... }`. -/
def checkPartnerIds (db : Db) (programId : String) (partnerIds : List String) :
    Except ActionError Bool :=
  if (db.programEnrollments.filter fun pe =>
      pe.programId == programId &&
        partnerIds.contains pe.partnerId).length != partnerIds.length then
    Except.error ActionError.invalidPartnerIds
  else if ((db.programEnrollments.filter fun pe =>
      pe.programId == programId &&
        partnerIds.contains pe.partnerId).filter fun pe =>
          pe.discountId.isSome).length > 0 then
    Except.error ActionError.partnerDiscountConflict
  else
    Except.ok false

/-- `createDiscountAction` of `create-discount.ts`, state threaded
explicitly.  `newId` stands for `createId({ prefix: "disc_" })`.  On a
throw the pair carries the store as it was at that point; every throw in
the source precedes every write.  In the source `if (partnerIds)` is a JS
truthiness test, so a present empty array takes the partner branch and
clears `isDefault`. -/
def createDiscountAction (workspaceId : String) (input : CreateDiscountInput)
    (newId : String) (db : Db) : Db × Except ActionError Discount :=
  match getProgramOrThrow db workspaceId input.programId with
  | none => (db, Except.error ActionError.programNotFound)
  | some program =>
    let check : Except ActionError Bool :=
      match input.partnerIds with
      | none => Except.ok true
      | some partnerIds => checkPartnerIds db input.programId partnerIds
    match check with
    | Except.error e => (db, Except.error e)
    | Except.ok isDefault =>
      if program.defaultDiscountId.isSome && isDefault then
        (db, Except.error ActionError.defaultDiscountConflict)
      else
        let discount : Discount :=
          { id := newId
            programId := input.programId
            amount := input.amount
            dtype := input.dtype
            maxDuration := input.maxDuration
            couponId := input.couponId
            couponTestId := input.couponTestId }
        let db1 := { db with discounts := db.discounts ++ [discount] }
        let db2 :=
          match input.partnerIds with
          | some partnerIds =>
            if partnerIds.length > 0 then
              { db1 with
                programEnrollments := db1.programEnrollments.map
                  fun (pe : ProgramEnrollment) =>
                  if pe.programId == input.programId &&
                      partnerIds.contains pe.partnerId then
                    { pe with discountId := some discount.id }
                  else pe }
            else db1
          | none => db1
        let db3 :=
          if isDefault then
            { db2 with
              programs := db2.programs.map fun (p : Program) =>
                if p.id == input.programId then
                  { p with defaultDiscountId := some discount.id }
                else p }
          else db2
        let db4 := { db3 with
          auditLogs := db3.auditLogs ++ ["discount.create:" ++ discount.id] }
        (db4, Except.ok discount)

/-- Failures surfaced by the API route handlers (`DubApiError` and a zod
parse failure). -/
inductive ApiError where
  | notFound (message : String)
  | parseFailed
deriving Repr, DecidableEq

/-- The caller's workspace as seen by `withWorkspace`; only
`defaultProgramId` matters to the embedded routes. -/
structure Workspace where
  id : String
  defaultProgramId : String
deriving Repr, DecidableEq

/-- The sort keys accepted by `getCommissionsQuerySchema.sortBy`.
Modelled from the spec: the commissions zod schema is not under `src/`;
the spec says `sortBy` is "one of a fixed allow-list of commission
fields", modelled here as the sortable fields of the in-scope
`Commission` record. -/
inductive CommissionSortBy where
  | createdAt
  | earnings
deriving Repr, DecidableEq

/-- `sortOrder`: ascending or descending. -/
inductive SortOrder where
  | asc
  | desc
deriving Repr, DecidableEq

/-- The parsed `getCommissionsQuerySchema` output, with the date interval
already resolved by `getStartEndDates` into `[startDate, endDate]`. -/
structure CommissionsQuery where
  status : Option String
  ctype : Option String
  customerId : Option String
  payoutId : Option String
  partnerId : Option String
  page : Nat
  pageSize : Nat
  sortBy : CommissionSortBy
  sortOrder : SortOrder
  startDate : Nat
  endDate : Nat
deriving Repr, DecidableEq

/-- Prisma equality filter on a non-nullable string column: an absent
filter constrains nothing. -/
def optFilter (filter : Option String) (value : String) : Bool :=
  match filter with
  | none => true
  | some v => value == v

/-- Prisma equality filter on a nullable string column: an absent filter
constrains nothing; a supplied one matches only the equal non-null value. -/
def optFilterN (filter : Option String) (value : Option String) : Bool :=
  match filter with
  | none => true
  | some v => value == some v

/-- The `where` clause of the `prisma.commission.findMany` call in
`GET /api/commissions`: `earnings > 0`, equality on `programId` and each
supplied filter, and `createdAt` between `startDate` and `endDate`
(`gte`/`lte`). -/
def commissionWhere (programId : String) (q : CommissionsQuery)
    (c : Commission) : Bool :=
  decide (0 < c.earnings) &&
  c.programId == programId &&
  optFilterN q.partnerId c.partnerId &&
  optFilter q.status c.status &&
  optFilter q.ctype c.ctype &&
  optFilterN q.customerId c.customerId &&
  optFilterN q.payoutId c.payoutId &&
  decide (q.startDate ≤ c.createdAt) && decide (c.createdAt ≤ q.endDate)

/-- The sort key selected by `orderBy: { [sortBy]: sortOrder }`. -/
def sortKey : CommissionSortBy → Commission → Int
  | CommissionSortBy.createdAt, c => c.createdAt
  | CommissionSortBy.earnings, c => c.earnings

/-- The row ordering induced by `sortBy`/`sortOrder`. -/
def commissionLe (sortBy : CommissionSortBy) (sortOrder : SortOrder)
    (a b : Commission) : Prop :=
  match sortOrder with
  | SortOrder.asc => sortKey sortBy a ≤ sortKey sortBy b
  | SortOrder.desc => sortKey sortBy b ≤ sortKey sortBy a

instance (s : CommissionSortBy) (o : SortOrder) :
    DecidableRel (commissionLe s o) := fun a b =>
  match o with
  | SortOrder.asc => (inferInstance : Decidable (sortKey s a ≤ sortKey s b))
  | SortOrder.desc => (inferInstance : Decidable (sortKey s b ≤ sortKey s a))

instance (s : CommissionSortBy) (o : SortOrder) :
    IsTotal Commission (commissionLe s o) :=
  ⟨by intro a b; cases o <;> exact Int.le_total _ _⟩

instance (s : CommissionSortBy) (o : SortOrder) :
    IsTrans Commission (commissionLe s o) :=
  ⟨by
    intro a b c h1 h2
    cases o <;> simp only [commissionLe] at h1 h2 ⊢ <;> omega⟩

/-- A commission record expanded with `include: { customer, partner }`. -/
structure CommissionExpanded where
  commission : Commission
  customer : Option Customer
  partner : Option Partner
deriving Repr, DecidableEq

/-- The `include` expansion: resolve the row's customer and partner
relations against the store. -/
def expandCommission (db : Db) (c : Commission) : CommissionExpanded :=
  { commission := c
    customer := c.customerId.bind fun cid =>
      db.customers.find? fun cu => cu.id == cid
    partner := c.partnerId.bind fun pid =>
      db.partners.find? fun p => p.id == pid }

/-- `GET /api/commissions` (`route.ts`): reject with NotFound when
`programId !== workspace.defaultProgramId` — this happens before the zod
parse, modelled by `parsed : Option CommissionsQuery` being consulted
only afterwards — then run the filtered, sorted, paginated, expanded
query. -/
def getCommissions (workspace : Workspace) (programId : String)
    (parsed : Option CommissionsQuery) (db : Db) :
    Except ApiError (List CommissionExpanded) :=
  if programId != workspace.defaultProgramId then
    Except.error (ApiError.notFound "Program not found")
  else
    match parsed with
    | none => Except.error ApiError.parseFailed
    | some q =>
      Except.ok (((((db.commissions.filter
        (commissionWhere programId q)).insertionSort
          (commissionLe q.sortBy q.sortOrder)).drop
            ((q.page - 1) * q.pageSize)).take q.pageSize).map
              (expandCommission db))

/-- The partner identity summary selected by the discount-partners route. -/
structure PartnerSummary where
  id : String
  name : String
  image : Option String
  email : Option String
deriving Repr, DecidableEq

/-- Project a partner row onto the selected `{id, name, image, email}`. -/
def partnerSummary (p : Partner) : PartnerSummary :=
  { id := p.id, name := p.name, image := p.image, email := p.email }

/-- Modelled from the spec: `getDiscountOrThrow` lives outside `src/`; the
spec says the discount "must exist within that program, else NotFound —
delegated to an existence-check collaborator". -/
def getDiscountOrThrow (db : Db) (programId discountId : String) :
    Option Discount :=
  db.discounts.find? fun d => d.id == discountId && d.programId == programId

/-- `GET /api/programs/[programId]/discounts/partners` (`part_000`):
program-scope check first (before the query parse), then the discount
existence check, then a read of every enrollment whose `discountId`
matches, each projected through its `partner` relation. -/
def getDiscountPartners (workspace : Workspace) (programId : String)
    (parsed : Option String) (db : Db) :
    Except ApiError (List PartnerSummary) :=
  if programId != workspace.defaultProgramId then
    Except.error (ApiError.notFound "Program not found")
  else
    match parsed with
    | none => Except.error ApiError.parseFailed
    | some discountId =>
      match getDiscountOrThrow db programId discountId with
      | none => Except.error (ApiError.notFound "Discount not found")
      | some _ =>
        Except.ok ((db.programEnrollments.filter fun pe =>
          pe.discountId == some discountId).filterMap fun pe =>
            (db.partners.find? fun p => p.id == pe.partnerId).map
              partnerSummary)

/-- The plan resolved by `getPlanFromPriceId`; `limits` drives the
workspace (project) update. -/
structure PlanLimits where
  clicks : Nat
  links : Nat
  payouts : Nat
  domains : Nat
  ai : Nat
  tags : Nat
  folders : Nat
  users : Nat
  api : Nat
deriving Repr, DecidableEq

/-- A subscription plan as returned by `getPlanFromPriceId`. -/
structure Plan where
  name : String
  limits : PlanLimits
deriving Repr, DecidableEq

/-- A workspace (`Project`) row, restricted to the fields written by the
checkout-session webhook. -/
structure Project where
  id : String
  stripeId : Option String
  billingCycleStart : Nat
  plan : String
  usageLimit : Nat
  linksLimit : Nat
  payoutsLimit : Nat
  domainsLimit : Nat
  aiLimit : Nat
  tagsLimit : Nat
  foldersLimit : Nat
  usersLimit : Nat
  paymentFailedAt : Option Nat
deriving Repr, DecidableEq

/-- The fields of a `Stripe.Checkout.Session` read by the handler;
`client_reference_id` and `customer` are nullable. -/
structure CheckoutSession where
  mode : String
  clientReferenceId : Option String
  customer : Option String
  subscription : String
deriving Repr, DecidableEq

/-- `checkoutSessionCompleted` of `checkout-session-completed.ts`.
`priceOf` models `stripe.subscriptions.retrieve(...).items.data[0].price.id`
and `planOf` models `getPlanFromPriceId` (both external collaborators
outside `src/`); `today` models `new Date().getDate()`.  The result pairs
the updated project table with the log lines emitted; `Except.error`
models an uncaught rejection (here: `prisma.project.update` on a missing
row).  The post-update fan-out (emails, token rate limits, onboarding) is
`Promise.allSettled` fire-and-forget and touches no project row, so it is
not part of the state here. -/
def checkoutSessionCompleted (priceOf : String → String)
    (planOf : String → Option Plan) (today : Nat) (cs : CheckoutSession)
    (projects : List Project) :
    Except String (List Project × List String) :=
  if cs.mode == "setup" then
    Except.ok (projects, [])
  else if cs.clientReferenceId == none || cs.customer == none then
    Except.ok (projects, ["Missing items in Stripe webhook callback"])
  else
    let priceId := priceOf cs.subscription
    match planOf priceId with
    | none =>
      Except.ok (projects,
        ["Invalid price ID in checkout.session.completed event: " ++ priceId])
    | some plan =>
      let workspaceId := cs.clientReferenceId.getD ""
      let stripeId := cs.customer.getD ""
      if projects.any fun p => p.id == workspaceId then
        Except.ok
          (projects.map fun (p : Project) =>
            if p.id == workspaceId then
              { p with
                stripeId := some stripeId
                billingCycleStart := today
                plan := plan.name.toLower
                usageLimit := plan.limits.clicks
                linksLimit := plan.limits.links
                payoutsLimit := plan.limits.payouts
                domainsLimit := plan.limits.domains
                aiLimit := plan.limits.ai
                tagsLimit := plan.limits.tags
                foldersLimit := plan.limits.folders
                usersLimit := plan.limits.users
                paymentFailedAt := none }
            else p, [])
      else
        Except.error "prisma.project.update: record not found"

/-! ### Concrete fixtures (the §8 scenario: program `prog_1` in workspace
`ws_1`, partners `pa`/`pb`/`pc` enrolled, no discounts, no default) -/

/-- `prog_1` with no default discount. -/
def progS : Program :=
  { id := "prog_1", workspaceId := "ws_1", defaultDiscountId := none }

/-- `prog_1` with a default discount already set. -/
def progD : Program :=
  { id := "prog_1", workspaceId := "ws_1", defaultDiscountId := some "disc_0" }

/-- Enrollment of partner `pa` in `prog_1`, no discount. -/
def enrPa : ProgramEnrollment :=
  { id := "pge_a", programId := "prog_1", partnerId := "pa", discountId := none }

/-- Enrollment of partner `pb` in `prog_1`, no discount. -/
def enrPb : ProgramEnrollment :=
  { id := "pge_b", programId := "prog_1", partnerId := "pb", discountId := none }

/-- Enrollment of partner `pc` in `prog_1`, no discount. -/
def enrPc : ProgramEnrollment :=
  { id := "pge_c", programId := "prog_1", partnerId := "pc", discountId := none }

/-- Enrollment of partner `pb` already carrying discount `disc_1`. -/
def enrPbD1 : ProgramEnrollment :=
  { id := "pge_b", programId := "prog_1", partnerId := "pb",
    discountId := some "disc_1" }

/-- The scenario store: `prog_1`, three discount-free enrollments, no
default discount. -/
def dbS : Db :=
  { programs := [progS], discounts := [],
    programEnrollments := [enrPa, enrPb, enrPc], partners := [],
    customers := [], commissions := [], auditLogs := [] }

/-- A store whose program already has a default discount. -/
def dbD : Db :=
  { programs := [progD], discounts := [],
    programEnrollments := [enrPa, enrPb, enrPc], partners := [],
    customers := [], commissions := [], auditLogs := [] }

/-- A store where partner `pb` already belongs to discount `disc_1`. -/
def dbConf : Db :=
  { programs := [progS], discounts := [],
    programEnrollments := [enrPa, enrPbD1, enrPc], partners := [],
    customers := [], commissions := [], auditLogs := [] }

/-- A `createDiscountSchema` input for `prog_1` with the given
`partnerIds`. -/
def baseInput (pids : Option (List String)) : CreateDiscountInput :=
  { programId := "prog_1", partnerIds := pids, amount := 10,
    dtype := "percentage", maxDuration := none, couponId := none,
    couponTestId := none }

/-- The discount row `createDiscountAction` builds for `baseInput` and the
fresh id `disc_new`. -/
def discNew : Discount :=
  { id := "disc_new", programId := "prog_1", amount := 10,
    dtype := "percentage", maxDuration := none, couponId := none,
    couponTestId := none }

/-! ### Helper lemmas about the validation phase -/

lemma checkPartnerIds_invalid (db : Db) (pid : String) (pids : List String)
    (hlen : (db.programEnrollments.filter fun pe =>
      pe.programId == pid && pids.contains pe.partnerId).length ≠
        pids.length) :
    checkPartnerIds db pid pids = Except.error ActionError.invalidPartnerIds := by
  unfold checkPartnerIds
  rw [if_pos]
  exact bne_iff_ne.mpr hlen

lemma checkPartnerIds_conflict (db : Db) (pid : String) (pids : List String)
    (hlen : (db.programEnrollments.filter fun pe =>
      pe.programId == pid && pids.contains pe.partnerId).length = pids.length)
    (hpos : 0 < ((db.programEnrollments.filter fun pe =>
      pe.programId == pid && pids.contains pe.partnerId).filter fun pe =>
        pe.discountId.isSome).length) :
    checkPartnerIds db pid pids =
      Except.error ActionError.partnerDiscountConflict := by
  have hnb : ¬(((db.programEnrollments.filter fun pe =>
      pe.programId == pid && pids.contains pe.partnerId).length !=
        pids.length) = true) := fun hc => (bne_iff_ne.mp hc) hlen
  unfold checkPartnerIds
  rw [if_neg hnb, if_pos hpos]

lemma checkPartnerIds_ok_false (db : Db) (pid : String) (pids : List String)
    (b : Bool) (h : checkPartnerIds db pid pids = Except.ok b) : b = false := by
  unfold checkPartnerIds at h
  split at h
  · exact absurd h (by simp)
  · split at h
    · exact absurd h (by simp)
    · cases h
      rfl

lemma checkPartnerIds_ok_elim (db : Db) (pid : String) (pids : List String)
    (h : checkPartnerIds db pid pids = Except.ok false) :
    (db.programEnrollments.filter fun pe =>
      pe.programId == pid && pids.contains pe.partnerId).length =
        pids.length ∧
    ((db.programEnrollments.filter fun pe =>
      pe.programId == pid && pids.contains pe.partnerId).filter fun pe =>
        pe.discountId.isSome).length = 0 := by
  by_cases h1 : (db.programEnrollments.filter fun pe =>
      pe.programId == pid && pids.contains pe.partnerId).length = pids.length
  · by_cases h2 : 0 < ((db.programEnrollments.filter fun pe =>
        pe.programId == pid && pids.contains pe.partnerId).filter fun pe =>
          pe.discountId.isSome).length
    · rw [checkPartnerIds_conflict db pid pids h1 h2] at h
      exact absurd h (by simp)
    · exact ⟨h1, by omega⟩
  · rw [checkPartnerIds_invalid db pid pids h1] at h
    exact absurd h (by simp)

/-! ### Claims -/

/-- C1 counterexample: the claim says a call whose `partnerIds` is absent
*or empty* fails with Conflict when `Program.defaultDiscountId` is set.
But on `dbD` (default discount `disc_0` set) with `partnerIds = some []`
the call succeeds: a present empty array is truthy in
`if (partnerIds)`, so `isDefault` is cleared and the default-conflict
check is skipped. -/
theorem createDiscount_default_claim_cex :
    (baseInput (some [])).partnerIds = some ([] : List String) ∧
    getProgramOrThrow dbD "ws_1" (baseInput (some [])).programId =
      some progD ∧
    progD.defaultDiscountId = some "disc_0" ∧
    (createDiscountAction "ws_1" (baseInput (some [])) "disc_new" dbD).2 ≠
      Except.error ActionError.defaultDiscountConflict ∧
    (createDiscountAction "ws_1" (baseInput (some [])) "disc_new" dbD).2 =
      Except.ok discNew := by
  have hok : (createDiscountAction "ws_1" (baseInput (some [])) "disc_new"
      dbD).2 = Except.ok discNew := rfl
  refine ⟨rfl, rfl, rfl, ?_, hok⟩
  rw [hok]
  exact fun hc => Except.noConfusion hc

/-- C1 (amended to calls whose `partnerIds` is *absent*): if the resolved
program's `defaultDiscountId` is already set the call fails with the
default-discount Conflict and leaves the store untouched; otherwise it
succeeds, inserts the new discount, sets the program's
`defaultDiscountId` to the new id, and touches no enrollment. -/
theorem createDiscount_default_path (workspaceId newId : String)
    (input : CreateDiscountInput) (db : Db) (program : Program)
    (hp : getProgramOrThrow db workspaceId input.programId = some program)
    (hnone : input.partnerIds = none) :
    (program.defaultDiscountId.isSome →
      createDiscountAction workspaceId input newId db =
        (db, Except.error ActionError.defaultDiscountConflict)) ∧
    (program.defaultDiscountId = none →
      ∃ d : Discount,
        (createDiscountAction workspaceId input newId db).2 = Except.ok d ∧
        d.id = newId ∧
        (createDiscountAction workspaceId input newId db).1.discounts =
          db.discounts ++ [d] ∧
        (createDiscountAction workspaceId input newId db).1.programs =
          db.programs.map (fun (p : Program) =>
            if p.id == input.programId then
              { p with defaultDiscountId := some newId }
            else p) ∧
        (createDiscountAction workspaceId input newId db).1.programEnrollments =
          db.programEnrollments) := by
  constructor
  · intro hd
    simp [createDiscountAction, hp, hnone, hd]
  · intro hd
    refine ⟨Discount.mk newId input.programId input.amount input.dtype
      input.maxDuration input.couponId input.couponTestId,
      ?_, rfl, ?_, ?_, ?_⟩ <;>
      simp [createDiscountAction, hp, hnone, hd]

/-- C1 witness: on the scenario store (no default discount), the
absent-`partnerIds` call succeeds and installs the new default. -/
theorem createDiscount_default_path_witness :
    ∃ d : Discount,
      (createDiscountAction "ws_1" (baseInput none) "disc_new" dbS).2 =
        Except.ok d ∧
      d.id = "disc_new" ∧
      (createDiscountAction "ws_1" (baseInput none) "disc_new" dbS).1.discounts =
        dbS.discounts ++ [d] ∧
      (createDiscountAction "ws_1" (baseInput none) "disc_new" dbS).1.programs =
        dbS.programs.map (fun (p : Program) =>
          if p.id == (baseInput none).programId then
            { p with defaultDiscountId := some "disc_new" }
          else p) ∧
      (createDiscountAction "ws_1" (baseInput none) "disc_new" dbS).1.programEnrollments =
        dbS.programEnrollments :=
  (createDiscount_default_path "ws_1" "disc_new" (baseInput none) dbS progS
    rfl rfl).2 rfl

/-- C2: with a supplied non-empty `partnerIds`, a loaded-enrollment count
differing from `partnerIds.length` fails with the invalid-partner-IDs
error (InvalidInput) regardless of any existing discounts, and otherwise
any loaded row already carrying a `discountId` fails with the
partner-discount Conflict; both failures leave the store untouched. -/
theorem createDiscount_partner_validation (workspaceId newId : String)
    (input : CreateDiscountInput) (db : Db) (program : Program)
    (partnerIds : List String)
    (hp : getProgramOrThrow db workspaceId input.programId = some program)
    (hsome : input.partnerIds = some partnerIds)
    (_hne : partnerIds ≠ []) :
    ((db.programEnrollments.filter fun pe =>
        pe.programId == input.programId &&
          partnerIds.contains pe.partnerId).length ≠ partnerIds.length →
      createDiscountAction workspaceId input newId db =
        (db, Except.error ActionError.invalidPartnerIds)) ∧
    ((db.programEnrollments.filter fun pe =>
        pe.programId == input.programId &&
          partnerIds.contains pe.partnerId).length = partnerIds.length →
      (∃ pe ∈ db.programEnrollments.filter fun pe =>
          pe.programId == input.programId &&
            partnerIds.contains pe.partnerId,
        pe.discountId.isSome) →
      createDiscountAction workspaceId input newId db =
        (db, Except.error ActionError.partnerDiscountConflict)) := by
  constructor
  · intro hlen
    have hchk := checkPartnerIds_invalid db input.programId partnerIds hlen
    simp [createDiscountAction, hp, hsome, hchk]
  · intro hlen hconf
    obtain ⟨pe, hmem, hdisc⟩ := hconf
    have hpos : 0 < ((db.programEnrollments.filter fun pe =>
        pe.programId == input.programId &&
          partnerIds.contains pe.partnerId).filter fun pe =>
            pe.discountId.isSome).length :=
      List.length_pos_of_mem (List.mem_filter.mpr ⟨hmem, hdisc⟩)
    have hchk := checkPartnerIds_conflict db input.programId partnerIds hlen
      hpos
    simp [createDiscountAction, hp, hsome, hchk]

/-- C2 witness: on the scenario store, naming the un-enrolled partner
`px` fails with the invalid-partner-IDs error. -/
theorem createDiscount_partner_validation_witness :
    createDiscountAction "ws_1" (baseInput (some ["pa", "px"])) "disc_new"
      dbS = (dbS, Except.error ActionError.invalidPartnerIds) :=
  (createDiscount_partner_validation "ws_1" "disc_new"
    (baseInput (some ["pa", "px"])) dbS progS ["pa", "px"] rfl rfl
    (by decide)).1 (by decide)

/-- C3: whenever `createDiscountAction` fails — program NotFound, invalid
partner IDs, or either Conflict — the store is returned exactly as it
was: no discount row inserted, no enrollment or program touched. -/
theorem createDiscount_no_mutation_on_failure (workspaceId newId : String)
    (input : CreateDiscountInput) (db : Db) (e : ActionError)
    (h : (createDiscountAction workspaceId input newId db).2 =
      Except.error e) :
    (createDiscountAction workspaceId input newId db).1 = db := by
  cases hfind : getProgramOrThrow db workspaceId input.programId with
  | none => simp [createDiscountAction, hfind]
  | some program =>
    cases hpids : input.partnerIds with
    | none =>
      by_cases hd : program.defaultDiscountId.isSome
      · simp [createDiscountAction, hfind, hpids, hd]
      · simp [createDiscountAction, hfind, hpids, hd] at h
    | some partnerIds =>
      cases hchk : checkPartnerIds db input.programId partnerIds with
      | error e2 => simp [createDiscountAction, hfind, hpids, hchk]
      | ok b =>
        have hb := checkPartnerIds_ok_false db input.programId partnerIds b
          hchk
        subst hb
        simp [createDiscountAction, hfind, hpids, hchk] at h

/-- C3 witness: the program-NotFound failure (program `prog_x` does not
resolve) leaves the scenario store untouched. -/
theorem createDiscount_no_mutation_on_failure_witness :
    (createDiscountAction "ws_1"
      { baseInput none with programId := "prog_x" } "disc_new" dbS).1 =
      dbS :=
  createDiscount_no_mutation_on_failure "ws_1" "disc_new"
    { baseInput none with programId := "prog_x" } dbS
    ActionError.programNotFound rfl

/-- C4: a call with `partnerIds = some []` on a resolvable program always
succeeds — even when the program already has a default discount — and
inserts the discount row while writing neither
`Program.defaultDiscountId` nor any `ProgramEnrollment.discountId`: the
new discount is referenced by nothing. -/
theorem createDiscount_emptyArray (workspaceId newId : String)
    (input : CreateDiscountInput) (db : Db) (program : Program)
    (hp : getProgramOrThrow db workspaceId input.programId = some program)
    (hempty : input.partnerIds = some []) :
    ∃ d : Discount,
      (createDiscountAction workspaceId input newId db).2 = Except.ok d ∧
      d.id = newId ∧
      (createDiscountAction workspaceId input newId db).1.discounts =
        db.discounts ++ [d] ∧
      (createDiscountAction workspaceId input newId db).1.programs =
        db.programs ∧
      (createDiscountAction workspaceId input newId db).1.programEnrollments =
        db.programEnrollments := by
  have hchk : checkPartnerIds db input.programId [] = Except.ok false := by
    simp [checkPartnerIds]
  refine ⟨Discount.mk newId input.programId input.amount input.dtype
    input.maxDuration input.couponId input.couponTestId,
    ?_, rfl, ?_, ?_, ?_⟩ <;>
    simp [createDiscountAction, hp, hempty, hchk]

/-- C4 witness: on the store whose program already has default discount
`disc_0`, the empty-array call succeeds and references nothing. -/
theorem createDiscount_emptyArray_witness :
    ∃ d : Discount,
      (createDiscountAction "ws_1" (baseInput (some [])) "disc_new" dbD).2 =
        Except.ok d ∧
      d.id = "disc_new" ∧
      (createDiscountAction "ws_1" (baseInput (some [])) "disc_new"
        dbD).1.discounts = dbD.discounts ++ [d] ∧
      (createDiscountAction "ws_1" (baseInput (some [])) "disc_new"
        dbD).1.programs = dbD.programs ∧
      (createDiscountAction "ws_1" (baseInput (some [])) "disc_new"
        dbD).1.programEnrollments = dbD.programEnrollments :=
  createDiscount_emptyArray "ws_1" "disc_new" (baseInput (some [])) dbD
    progD rfl rfl

/-- C5: a successful call with a supplied non-empty `partnerIds` writes
the new discount's id into exactly the enrollments matching
`(programId, partnerId in partnerIds)` — every other enrollment row and
the program table (hence `defaultDiscountId`) are left unchanged. -/
theorem createDiscount_partner_assignment (workspaceId newId : String)
    (input : CreateDiscountInput) (db : Db) (partnerIds : List String)
    (d : Discount)
    (hsome : input.partnerIds = some partnerIds)
    (hne : partnerIds ≠ [])
    (hok : (createDiscountAction workspaceId input newId db).2 =
      Except.ok d) :
    d.id = newId ∧
    (createDiscountAction workspaceId input newId db).1.programEnrollments =
      db.programEnrollments.map (fun (pe : ProgramEnrollment) =>
        if pe.programId == input.programId &&
            partnerIds.contains pe.partnerId then
          { pe with discountId := some d.id }
        else pe) ∧
    (createDiscountAction workspaceId input newId db).1.programs =
      db.programs := by
  cases hfind : getProgramOrThrow db workspaceId input.programId with
  | none => simp [createDiscountAction, hfind] at hok
  | some program =>
    cases hchk : checkPartnerIds db input.programId partnerIds with
    | error e => simp [createDiscountAction, hfind, hsome, hchk] at hok
    | ok b =>
      have hb := checkPartnerIds_ok_false db input.programId partnerIds b
        hchk
      subst hb
      have hlenpos : 0 < partnerIds.length := by
        cases partnerIds with
        | nil => exact absurd rfl hne
        | cons a l => simp
      have hd : Discount.mk newId input.programId input.amount input.dtype
          input.maxDuration input.couponId input.couponTestId = d := by
        simpa [createDiscountAction, hfind, hsome, hchk] using hok
      subst hd
      refine ⟨rfl, ?_, ?_⟩ <;>
        simp [createDiscountAction, hfind, hsome, hchk, hlenpos]

/-- C5 witness: creating `disc_new` over `{pa, pb}` on the scenario store
rewrites exactly the `pa`/`pb` enrollments and leaves `pc` and the
program table alone. -/
theorem createDiscount_partner_assignment_witness :
    discNew.id = "disc_new" ∧
    (createDiscountAction "ws_1" (baseInput (some ["pa", "pb"])) "disc_new"
      dbS).1.programEnrollments =
      dbS.programEnrollments.map (fun (pe : ProgramEnrollment) =>
        if pe.programId == (baseInput (some ["pa", "pb"])).programId &&
            (["pa", "pb"] : List String).contains pe.partnerId then
          { pe with discountId := some discNew.id }
        else pe) ∧
    (createDiscountAction "ws_1" (baseInput (some ["pa", "pb"])) "disc_new"
      dbS).1.programs = dbS.programs :=
  createDiscount_partner_assignment "ws_1" "disc_new"
    (baseInput (some ["pa", "pb"])) dbS ["pa", "pb"] discNew rfl
    (by decide) rfl

/-! ### Commission-query fixtures and lemmas -/

/-- The caller's workspace whose default program is `prog_1`. -/
def wsA : Workspace := { id := "ws_1", defaultProgramId := "prog_1" }

/-- A commission with strictly positive earnings. -/
def comPos : Commission :=
  { id := "cm_1", programId := "prog_1", partnerId := none,
    customerId := none, payoutId := none, status := "pending",
    ctype := "sale", earnings := 5, createdAt := 10 }

/-- A zero-earnings commission (e.g. fully reversed). -/
def comZero : Commission :=
  { id := "cm_2", programId := "prog_1", partnerId := none,
    customerId := none, payoutId := none, status := "pending",
    ctype := "sale", earnings := 0, createdAt := 11 }

/-- A store holding one positive and one zero-earnings commission. -/
def dbC : Db :=
  { programs := [progS], discounts := [], programEnrollments := [],
    partners := [], customers := [], commissions := [comPos, comZero],
    auditLogs := [] }

/-- A fully-defaulted commissions query: no filters, first page of ten,
ascending by `createdAt`, interval `[0, 100]`. -/
def q0 : CommissionsQuery :=
  { status := none, ctype := none, customerId := none, payoutId := none,
    partnerId := none, page := 1, pageSize := 10,
    sortBy := CommissionSortBy.createdAt, sortOrder := SortOrder.asc,
    startDate := 0, endDate := 100 }

/-- The page `getCommissions wsA "prog_1" (some q0) dbC` returns. -/
def resC : List CommissionExpanded :=
  [{ commission := comPos, customer := none, partner := none }]

lemma commissionWhere_earnings_pos {programId : String}
    {q : CommissionsQuery} {c : Commission}
    (h : commissionWhere programId q c = true) : 0 < c.earnings := by
  unfold commissionWhere at h
  simp only [Bool.and_eq_true, decide_eq_true_eq] at h
  exact h.1.1.1.1.1.1.1.1

/-- C6: a commission whose earnings are zero or negative never appears in
a `getCommissions` result, whatever the workspace, query and store. -/
theorem getCommissions_earnings_positive (workspace : Workspace)
    (programId : String) (parsed : Option CommissionsQuery) (db : Db)
    (res : List CommissionExpanded)
    (h : getCommissions workspace programId parsed db = Except.ok res) :
    ∀ r ∈ res, 0 < r.commission.earnings := by
  intro r hr
  by_cases hprog : (programId != workspace.defaultProgramId) = true
  · rw [getCommissions.eq_def, if_pos hprog] at h
    exact absurd h (by simp)
  · rw [getCommissions.eq_def, if_neg hprog] at h
    cases parsed with
    | none => exact absurd h (by simp)
    | some q =>
      simp only [Except.ok.injEq] at h
      subst h
      obtain ⟨c, hc, rfl⟩ := List.mem_map.mp hr
      have hc1 := List.mem_of_mem_take hc
      have hc2 := List.mem_of_mem_drop hc1
      have hc3 := (List.mem_insertionSort
        (commissionLe q.sortBy q.sortOrder)).mp hc2
      have hw := (List.mem_filter.mp hc3).2
      exact commissionWhere_earnings_pos hw

/-- C6 witness: on `dbC` the returned page holds the positive commission,
whose earnings the theorem shows positive. -/
theorem getCommissions_earnings_positive_witness :
    0 < (CommissionExpanded.mk comPos none none).commission.earnings :=
  getCommissions_earnings_positive wsA "prog_1" (some q0) dbC resC rfl
    (CommissionExpanded.mk comPos none none) (by decide)

/-- The commission filter exactly as the claim words it: strictly
positive earnings, program match, every supplied filter an equality
constraint, and `createdAt` within `[startDate, endDate]`, inclusive on
both ends. -/
def specCommissionFilter (programId : String) (q : CommissionsQuery)
    (c : Commission) : Prop :=
  0 < c.earnings ∧ c.programId = programId ∧
  (∀ v, q.partnerId = some v → c.partnerId = some v) ∧
  (∀ v, q.status = some v → c.status = v) ∧
  (∀ v, q.ctype = some v → c.ctype = v) ∧
  (∀ v, q.customerId = some v → c.customerId = some v) ∧
  (∀ v, q.payoutId = some v → c.payoutId = some v) ∧
  q.startDate ≤ c.createdAt ∧ c.createdAt ≤ q.endDate

lemma optFilter_eq_true_iff (f : Option String) (v : String) :
    optFilter f v = true ↔ ∀ x, f = some x → v = x := by
  cases f with
  | none => simp [optFilter]
  | some a => simp [optFilter]

lemma optFilterN_eq_true_iff (f : Option String) (v : Option String) :
    optFilterN f v = true ↔ ∀ x, f = some x → v = some x := by
  cases f with
  | none => simp [optFilterN]
  | some a => simp [optFilterN]

/-- C7: a successful `getCommissions` answer is the
`(page-1)*pageSize / pageSize` window of a `sortBy`/`sortOrder`-sorted
permutation of the commissions passing the filter, each expanded with its
customer and partner; and the filter is precisely the claim's predicate:
equality on the supplied filters and `createdAt ∈ [startDate, endDate]`
inclusive. -/
theorem getCommissions_spec (workspace : Workspace) (programId : String)
    (q : CommissionsQuery) (db : Db) (res : List CommissionExpanded)
    (hprog : programId = workspace.defaultProgramId)
    (hres : getCommissions workspace programId (some q) db =
      Except.ok res) :
    (∃ sorted : List Commission,
      List.Perm sorted
        (db.commissions.filter (commissionWhere programId q)) ∧
      List.Sorted (commissionLe q.sortBy q.sortOrder) sorted ∧
      res = ((sorted.drop ((q.page - 1) * q.pageSize)).take
        q.pageSize).map (expandCommission db)) ∧
    (∀ c : Commission,
      commissionWhere programId q c = true ↔
        specCommissionFilter programId q c) := by
  constructor
  · have hb : (programId != workspace.defaultProgramId) = false := by
      simp [hprog]
    rw [getCommissions.eq_def, if_neg (by simp [hb])] at hres
    simp only [Except.ok.injEq] at hres
    refine ⟨(db.commissions.filter
        (commissionWhere programId q)).insertionSort
          (commissionLe q.sortBy q.sortOrder),
      List.perm_insertionSort _ _,
      List.sorted_insertionSort _ _, hres.symm⟩
  · intro c
    unfold commissionWhere specCommissionFilter
    simp only [Bool.and_eq_true, decide_eq_true_eq, beq_iff_eq,
      optFilter_eq_true_iff, optFilterN_eq_true_iff]
    tauto

/-- C7 witness: the concrete page over `dbC` is the sorted, filtered,
expanded window the specification describes. -/
theorem getCommissions_spec_witness :
    (∃ sorted : List Commission,
      List.Perm sorted
        (dbC.commissions.filter (commissionWhere "prog_1" q0)) ∧
      List.Sorted (commissionLe q0.sortBy q0.sortOrder) sorted ∧
      resC = ((sorted.drop ((q0.page - 1) * q0.pageSize)).take
        q0.pageSize).map (expandCommission dbC)) ∧
    (∀ c : Commission,
      commissionWhere "prog_1" q0 c = true ↔
        specCommissionFilter "prog_1" q0 c) :=
  getCommissions_spec wsA "prog_1" q0 dbC resC rfl rfl

/-! ### Discount-partner lookup fixtures and lemmas -/

/-- Partner row for `pa`. -/
def paP : Partner :=
  { id := "pa", name := "Partner A", image := none,
    email := some "pa@example.com" }

/-- Partner row for `pb`. -/
def pbP : Partner :=
  { id := "pb", name := "Partner B", image := some "img_b", email := none }

/-- Partner row for `pc`. -/
def pcP : Partner :=
  { id := "pc", name := "Partner C", image := none, email := none }

/-- The discount `disc_1` owned by `prog_1`. -/
def disc1 : Discount :=
  { id := "disc_1", programId := "prog_1", amount := 5, dtype := "flat",
    maxDuration := some 3, couponId := none, couponTestId := none }

/-- A store where `pb` references `disc_1` and partner rows exist. -/
def dbP : Db :=
  { programs := [progS], discounts := [disc1],
    programEnrollments := [enrPa, enrPbD1, enrPc],
    partners := [paP, pbP, pcP], customers := [], commissions := [],
    auditLogs := [] }

lemma filterMap_forall₂ {α β : Type} (f : α → Option β) :
    ∀ l : List α, (∀ a ∈ l, (f a).isSome) →
      List.Forall₂ (fun a b => f a = some b) l (l.filterMap f)
  | [], _ => by simp
  | a :: l, h => by
    obtain ⟨b, hb⟩ := Option.isSome_iff_exists.mp
      (h a (List.mem_cons_self a l))
    rw [List.filterMap_cons, hb]
    exact List.Forall₂.cons hb (filterMap_forall₂ f l fun x hx =>
      h x (List.mem_cons_of_mem a hx))

/-- C8: with a program matching the workspace and an existing discount in
it, `getDiscountPartners` returns, in enrollment-insertion order, exactly
one `{id, name, image, email}` summary per enrollment referencing the
discount — the whole set, unpaginated — and being a plain function of the
store it has no side effects. -/
theorem getDiscountPartners_spec (workspace : Workspace)
    (programId discountId : String) (db : Db) (d : Discount)
    (hprog : programId = workspace.defaultProgramId)
    (hd : getDiscountOrThrow db programId discountId = some d)
    (hwf : ∀ pe ∈ db.programEnrollments,
      (db.partners.find? fun p => p.id == pe.partnerId).isSome) :
    ∃ res : List PartnerSummary,
      getDiscountPartners workspace programId (some discountId) db =
        Except.ok res ∧
      List.Forall₂ (fun (pe : ProgramEnrollment) (s : PartnerSummary) =>
        (db.partners.find? fun p => p.id == pe.partnerId).map
          partnerSummary = some s)
        (db.programEnrollments.filter fun pe =>
          pe.discountId == some discountId) res := by
  refine ⟨(db.programEnrollments.filter fun pe =>
      pe.discountId == some discountId).filterMap fun pe =>
        (db.partners.find? fun p => p.id == pe.partnerId).map
          partnerSummary, ?_, ?_⟩
  · rw [getDiscountPartners.eq_def, if_neg (by simp [hprog])]
    simp only [hd]
  · refine filterMap_forall₂ _ _ fun pe hpe => ?_
    have := hwf pe (List.mem_of_mem_filter hpe)
    simp [Option.isSome_map, this]

/-- C8 witness: asking for `disc_1`'s partners on `dbP` returns exactly
partner `pb`'s summary. -/
theorem getDiscountPartners_spec_witness :
    ∃ res : List PartnerSummary,
      getDiscountPartners wsA "prog_1" (some "disc_1") dbP =
        Except.ok res ∧
      List.Forall₂ (fun (pe : ProgramEnrollment) (s : PartnerSummary) =>
        (dbP.partners.find? fun p => p.id == pe.partnerId).map
          partnerSummary = some s)
        (dbP.programEnrollments.filter fun pe =>
          pe.discountId == some "disc_1") res :=
  getDiscountPartners_spec wsA "prog_1" "disc_1" dbP disc1 rfl rfl
    (by decide)

/-- C9: whenever the supplied `programId` differs from the workspace's
default program, both list routes answer NotFound — for *every* parse
outcome (including an unparseable query) and every store, i.e. before
any filter parsing or data access; and with a matching program,
`getDiscountPartners` answers NotFound when the discount does not exist
within that program. -/
theorem routes_program_scope (workspace : Workspace) (programId : String)
    (parsedC : Option CommissionsQuery) (parsedD : Option String)
    (db : Db) :
    (programId ≠ workspace.defaultProgramId →
      getCommissions workspace programId parsedC db =
        Except.error (ApiError.notFound "Program not found") ∧
      getDiscountPartners workspace programId parsedD db =
        Except.error (ApiError.notFound "Program not found")) ∧
    (∀ discountId : String, programId = workspace.defaultProgramId →
      getDiscountOrThrow db programId discountId = none →
      getDiscountPartners workspace programId (some discountId) db =
        Except.error (ApiError.notFound "Discount not found")) := by
  constructor
  · intro hne
    have hb : (programId != workspace.defaultProgramId) = true :=
      bne_iff_ne.mpr hne
    constructor
    · rw [getCommissions.eq_def, if_pos hb]
    · rw [getDiscountPartners.eq_def, if_pos hb]
  · intro discountId hprog hnone
    rw [getDiscountPartners.eq_def, if_neg (by simp [hprog])]
    simp only [hnone]

/-- C9 witness: `prog_x` mismatches `wsA`'s default program, so both
routes 404 even with an unparseable query; and `disc_x` does not exist in
`prog_1`, so the partner lookup 404s. -/
theorem routes_program_scope_witness :
    (getCommissions wsA "prog_x" none dbC =
      Except.error (ApiError.notFound "Program not found") ∧
     getDiscountPartners wsA "prog_x" none dbC =
      Except.error (ApiError.notFound "Program not found")) ∧
    getDiscountPartners wsA "prog_1" (some "disc_x") dbP =
      Except.error (ApiError.notFound "Discount not found") :=
  ⟨(routes_program_scope wsA "prog_x" none none dbC).1 (by decide),
   (routes_program_scope wsA "prog_1" none none dbP).2 "disc_x" rfl rfl⟩

/-! ### Checkout-session webhook fixtures and claims -/

/-- A setup-mode session missing both nullable fields. -/
def csSetupMissing : CheckoutSession :=
  { mode := "setup", clientReferenceId := none, customer := none,
    subscription := "sub_1" }

/-- A subscription-mode session missing its client reference. -/
def csSubMissing : CheckoutSession :=
  { mode := "subscription", clientReferenceId := none,
    customer := some "cus_1", subscription := "sub_1" }

/-- A price lookup returning a fixed unknown price id. -/
def priceX : String → String := fun _ => "price_x"

/-- A `getPlanFromPriceId` knowing no plan at all. -/
def planNone : String → Option Plan := fun _ => none

/-- A one-workspace project table. -/
def projs1 : List Project :=
  [{ id := "ws_1", stripeId := none, billingCycleStart := 1,
     plan := "free", usageLimit := 0, linksLimit := 0, payoutsLimit := 0,
     domainsLimit := 0, aiLimit := 0, tagsLimit := 0, foldersLimit := 0,
     usersLimit := 0, paymentFailedAt := none }]

/-- C10 counterexample: the claim says every event whose session is
missing its client reference is logged; but a *setup-mode* session with a
missing client reference returns before the check, emitting no log at
all. -/
theorem checkout_drop_log_claim_cex :
    csSetupMissing.clientReferenceId = none ∧
    checkoutSessionCompleted priceX planNone 1 csSetupMissing projs1 =
      Except.ok (projs1, []) :=
  ⟨rfl, rfl⟩

/-- C10 (amended to sessions whose mode is not "setup"): when the client
reference or customer is missing, or the subscription's price resolves to
no known plan, the handler emits a log line and returns normally — no
exception, and the project (workspace) table untouched. -/
theorem checkout_drop_and_log (priceOf : String → String)
    (planOf : String → Option Plan) (today : Nat) (cs : CheckoutSession)
    (projects : List Project)
    (hmode : cs.mode ≠ "setup")
    (hbad : cs.clientReferenceId = none ∨ cs.customer = none ∨
      planOf (priceOf cs.subscription) = none) :
    ∃ logs : List String,
      checkoutSessionCompleted priceOf planOf today cs projects =
        Except.ok (projects, logs) ∧ logs ≠ [] := by
  have hm : (cs.mode == "setup") = false := by
    simpa using hmode
  rcases hbad with h | h | h
  · exact ⟨["Missing items in Stripe webhook callback"],
      by simp [checkoutSessionCompleted, hm, h], by simp⟩
  · exact ⟨["Missing items in Stripe webhook callback"],
      by simp [checkoutSessionCompleted, hm, h], by simp⟩
  · by_cases h1 : cs.clientReferenceId = none
    · exact ⟨["Missing items in Stripe webhook callback"],
        by simp [checkoutSessionCompleted, hm, h1], by simp⟩
    · by_cases h2 : cs.customer = none
      · exact ⟨["Missing items in Stripe webhook callback"],
          by simp [checkoutSessionCompleted, hm, h2], by simp⟩
      · exact ⟨["Invalid price ID in checkout.session.completed event: " ++
            priceOf cs.subscription],
          by simp [checkoutSessionCompleted, hm, h1, h2, h], by simp⟩

/-- C10 witness: a subscription-mode session missing its client reference
is dropped-and-logged with the project table unchanged. -/
theorem checkout_drop_and_log_witness :
    ∃ logs : List String,
      checkoutSessionCompleted priceX planNone 1 csSubMissing projs1 =
        Except.ok (projs1, logs) ∧ logs ≠ [] :=
  checkout_drop_and_log priceX planNone 1 csSubMissing projs1 (by decide)
    (Or.inl rfl)

end Dub
